import Mathlib

/-!
Verification of the restaurant-booking-system repository.

The in-memory route layer (`backend/routes/bookings.js`) is embedded as pure
state-passing functions over a `Store` of bookings; request bodies whose
fields may be absent (JavaScript `undefined`) are modelled with `Option`, and
JavaScript truthiness tests (`if (!date || ...)`, `if (guests)`) are modelled
by explicit truthiness predicates (`none`, the empty string and the number 0
are falsy).  The SQL availability function `check_table_availability` from
`database/schema.sql` is embedded over lists of table and booking rows; the
`ORDER BY capacity ASC` clause fixes no order among rows of equal capacity,
so the embedding picks one order SQL permits (a stable sort of the rows in
store order), and the properties proved about the query — which rows come
back, and that capacities ascend — hold for every order SQL permits.
-/

/-- A booking record as built by `POST /api/bookings` in
`backend/routes/bookings.js` (no table id is ever assigned there). -/
structure Booking where
  id : Nat
  date : String
  time : String
  guests : Int
  name : String
  email : String
  phone : String
  status : String
  createdAt : String
  updatedAt : Option String
deriving Repr, DecidableEq

/-- The module-level mutable state of `backend/routes/bookings.js`:
`let bookings = []` and `let nextId = 1`. -/
structure Store where
  bookings : List Booking
  nextId : Nat
deriving Repr, DecidableEq

/-- The initial state of the route module. -/
def emptyStore : Store := ⟨[], 1⟩

/-- A `POST /api/bookings` request body: every field may be absent. -/
structure BookingRequest where
  date : Option String
  time : Option String
  guests : Option Int
  name : Option String
  email : Option String
  phone : Option String
deriving Repr, DecidableEq

/-- JavaScript truthiness of an optional string: `undefined` and `""` are
falsy. -/
def strTruthy : Option String → Bool
  | none => false
  | some s => s ≠ ""

/-- JavaScript truthiness of an optional number: `undefined` and `0` are
falsy. -/
def intTruthy : Option Int → Bool
  | none => false
  | some g => g ≠ 0

/-- Truthiness of all six request fields, i.e. the negation of the route's
`if (!date || !time || !guests || !name || !email || !phone)` guard. -/
def allFieldsTruthy (req : BookingRequest) : Bool :=
  strTruthy req.date && strTruthy req.time && intTruthy req.guests &&
    strTruthy req.name && strTruthy req.email && strTruthy req.phone

/-- Outcome of `POST /api/bookings`: the 400 response for the
all-fields-required guard, the 400 response for the guest-count guard, or the
201 response carrying the new booking. -/
inductive CreateResult where
  | missingFields : CreateResult
  | invalidGuests : CreateResult
  | created : Booking → CreateResult
deriving Repr, DecidableEq

/-- `POST /api/bookings` (`router.post` in `backend/routes/bookings.js`):
reject if any field is falsy, then reject if `guests < 1 || guests > 10`,
otherwise push a booking with status `"confirmed"` and increment `nextId`.
`now` stands for `new Date().toISOString()`. -/
def createBooking (st : Store) (req : BookingRequest) (now : String) :
    CreateResult × Store :=
  if !strTruthy req.date || !strTruthy req.time || !intTruthy req.guests ||
      !strTruthy req.name || !strTruthy req.email || !strTruthy req.phone then
    (.missingFields, st)
  else if req.guests.getD 0 < 1 || req.guests.getD 0 > 10 then
    (.invalidGuests, st)
  else
    let b : Booking :=
      { id := st.nextId, date := req.date.getD "", time := req.time.getD "",
        guests := req.guests.getD 0, name := req.name.getD "",
        email := req.email.getD "", phone := req.phone.getD "",
        status := "confirmed", createdAt := now, updatedAt := none }
    (.created b, ⟨st.bookings ++ [b], st.nextId + 1⟩)

/-- The validation-rule identifiers of the specification's error taxonomy. -/
inductive Violation where
  | MissingField : Violation
  | InvalidPartySize : Violation
  | PastDate : Violation
  | InvalidEmail : Violation
deriving Repr, DecidableEq

/-- The list of violated-rule identifiers reported by one `POST` response:
each 400 branch of the route carries a single message, mapped to the
corresponding identifier of the taxonomy. -/
def reportedViolations : CreateResult → List Violation
  | .missingFields => [.MissingField]
  | .invalidGuests => [.InvalidPartySize]
  | .created _ => []

/-- `GET /api/bookings/:id`: `bookings.find(b => b.id === parseInt(id))`;
`none` is the 404 response. -/
def getBooking (st : Store) (id : Nat) : Option Booking :=
  st.bookings.find? (fun b => b.id == id)

/-- A `PUT /api/bookings/:id` request body: every field may be absent. -/
structure Patch where
  date : Option String
  time : Option String
  guests : Option Int
  name : Option String
  email : Option String
  phone : Option String
  status : Option String
deriving Repr, DecidableEq

/-- The empty patch body. -/
def emptyPatch : Patch := ⟨none, none, none, none, none, none, none⟩

/-- The field-update block of `PUT /api/bookings/:id`: each `if (field)
booking.field = field;` line keeps the old value when the patch field is
falsy; `booking.updatedAt` is always set to `now`. -/
def applyPatch (b : Booking) (p : Patch) (now : String) : Booking :=
  { b with
    date := if strTruthy p.date then p.date.getD "" else b.date,
    time := if strTruthy p.time then p.time.getD "" else b.time,
    guests := if intTruthy p.guests then p.guests.getD 0 else b.guests,
    name := if strTruthy p.name then p.name.getD "" else b.name,
    email := if strTruthy p.email then p.email.getD "" else b.email,
    phone := if strTruthy p.phone then p.phone.getD "" else b.phone,
    status := if strTruthy p.status then p.status.getD "" else b.status,
    updatedAt := some now }

/-- Replace the first booking with the given id by its image under `f`
(the JavaScript code mutates the array element returned by `find`). -/
def updateFirst (bs : List Booking) (id : Nat) (f : Booking → Booking) :
    List Booking :=
  match bs with
  | [] => []
  | b :: rest =>
    if b.id == id then f b :: rest else b :: updateFirst rest id f

/-- `PUT /api/bookings/:id`: 404 (`none`) when no booking has the id,
otherwise mutate the found booking in place and return it. -/
def updateBooking (st : Store) (id : Nat) (p : Patch) (now : String) :
    Option Booking × Store :=
  match st.bookings.find? (fun b => b.id == id) with
  | none => (none, st)
  | some b =>
    (some (applyPatch b p now),
      ⟨updateFirst st.bookings id (fun x => applyPatch x p now), st.nextId⟩)

/-- `DELETE /api/bookings/:id`: `findIndex` then `splice(index, 1)`;
`false` is the 404 response. -/
def deleteBooking (st : Store) (id : Nat) : Bool × Store :=
  match st.bookings.findIdx? (fun b => b.id == id) with
  | none => (false, st)
  | some i => (true, ⟨st.bookings.eraseIdx i, st.nextId⟩)

/-- Outcome of `GET /api/availability`: either the 400 response for a missing
query parameter, or the data object of the 200 response. -/
inductive AvailResult where
  | missingParams : AvailResult
  | ok : String → String → Int → Int → Int → Bool → AvailResult
deriving Repr, DecidableEq

/-- `GET /api/availability` (`router.get` on `/check/availability`): filter
the bookings with the same date, time and status `"confirmed"`; report
`totalTables = 15`, `occupiedTables` the filter's length, `availableTables`
their difference, and `isAvailable` its positivity. -/
def slotSummary (st : Store) (date? time? : Option String) : AvailResult :=
  if !strTruthy date? || !strTruthy time? then
    .missingParams
  else
    let d := date?.getD ""
    let t := time?.getD ""
    let occupied : Int :=
      ((st.bookings.filter
        (fun b => b.date == d && b.time == t && b.status == "confirmed")).length : Int)
    .ok d t 15 occupied (15 - occupied) (decide (15 - occupied > 0))

/-- The number of bookings of the store with the given date and time and
status `"confirmed"`. -/
def confirmedCountAt (st : Store) (d t : String) : Nat :=
  st.bookings.countP (fun b => b.date == d && b.time == t && b.status == "confirmed")

/-- The number of bookings of the store with the given date and time and an
active status, written from the specification's definition of
`activeBookingsFor` (status in pending, confirmed); used to state what the
claim expects of `occupiedTables`. -/
def claimActiveCountAt (st : Store) (d t : String) : Nat :=
  st.bookings.countP
    (fun b => b.date == d && b.time == t &&
      (b.status == "pending" || b.status == "confirmed"))

namespace DB

/-- A row of the SQL `tables` table. -/
structure Table where
  id : Nat
  table_number : String
  capacity : Int
  location : String
  is_available : Bool
deriving Repr, DecidableEq

/-- A row of the SQL `bookings` table (the columns read by
`check_table_availability`; `table_id` is nullable). -/
structure Booking where
  id : Nat
  table_id : Option Nat
  booking_date : String
  booking_time : String
  status : String
deriving Repr, DecidableEq

/-- The `EXISTS` subquery of `check_table_availability`: some booking row
holds this table at this date and time with status `'confirmed'` or
`'pending'`. -/
def hasActiveBookingAt (bs : List Booking) (tid : Nat) (d t : String) : Bool :=
  bs.any (fun b =>
    b.table_id == some tid && b.booking_date == d && b.booking_time == t &&
      (b.status == "confirmed" || b.status == "pending"))

/-- The `WHERE` clause of `check_table_availability`:
`capacity >= p_guests AND is_available = true AND NOT EXISTS (...)`. -/
def candidatePred (bs : List Booking) (d t : String) (p : Int) (tb : Table) : Bool :=
  decide (tb.capacity ≥ p) && tb.is_available && !hasActiveBookingAt bs tb.id d t

/-- Comparison of table rows by the sort key of `ORDER BY t.capacity ASC`. -/
def capLe (a b : Table) : Prop := a.capacity ≤ b.capacity

instance : DecidableRel capLe := fun a b =>
  inferInstanceAs (Decidable (a.capacity ≤ b.capacity))

instance : IsTotal Table capLe := ⟨fun a b => le_total a.capacity b.capacity⟩

instance : IsTrans Table capLe := ⟨fun _ _ _ hab hbc => le_trans hab hbc⟩

/-- The SQL function `check_table_availability(p_date, p_time, p_guests)`
from `database/schema.sql`: the row-filter of its `WHERE` clause followed by
`ORDER BY t.capacity ASC`.  SQL leaves the order of equal-capacity rows
unspecified, so the model realizes one order SQL permits — the rows in store
order, sorted stably by capacity; any conclusion about which rows are
returned, or that capacities ascend, is independent of that choice, while
the order of equal-capacity rows is a fact about this one permitted
execution only. -/
def check_table_availability (tables : List Table) (bookings : List Booking)
    (p_date p_time : String) (p_guests : Int) : List Table :=
  List.insertionSort capLe (tables.filter (candidatePred bookings p_date p_time p_guests))

end DB

/-- A fully valid creation request for the slot (2026-03-01, 19:00). -/
def c1req : BookingRequest :=
  ⟨some "2026-03-01", some "19:00", some 4, some "A", some "a@b.com", some "+359"⟩

/-- The booking the route builds for `c1req` on the empty store. -/
def c1b1 : Booking :=
  ⟨1, "2026-03-01", "19:00", 4, "A", "a@b.com", "+359", "confirmed", "T1", none⟩

/-- The booking the route builds for a second identical request. -/
def c1b2 : Booking :=
  ⟨2, "2026-03-01", "19:00", 4, "A", "a@b.com", "+359", "confirmed", "T2", none⟩

/-- The i-th of fifteen confirmed bookings filling the slot
(2026-03-01, 19:00), one per table of the default 15-table restaurant. -/
def c2book (i : Nat) : Booking :=
  ⟨i + 1, "2026-03-01", "19:00", 2, "G", "g@x.com", "+359", "confirmed", "T0", none⟩

/-- A store holding fifteen confirmed bookings at (2026-03-01, 19:00), so the
availability endpoint reports zero available tables for that slot. -/
def fullStore : Store := ⟨(List.range 15).map c2book, 16⟩

/-- A valid creation request for the already-full slot. -/
def c2req : BookingRequest :=
  ⟨some "2026-03-01", some "19:00", some 4, some "B", some "b@x.com", some "+359"⟩

/-- The booking the route builds for `c2req` on `fullStore`. -/
def c2b : Booking :=
  ⟨16, "2026-03-01", "19:00", 4, "B", "b@x.com", "+359", "confirmed", "T9", none⟩

/-- A booking whose status is `"cancelled"`. -/
def c3b : Booking :=
  ⟨1, "2026-03-01", "19:00", 2, "A", "a@b.com", "+359", "cancelled", "T0", none⟩

/-- A store holding only the cancelled booking `c3b`. -/
def c3store : Store := ⟨[c3b], 2⟩

/-- A status-only patch requesting the transition cancelled to confirmed. -/
def c3patch : Patch := { emptyPatch with status := some "confirmed" }

/-- The booking `c3b` after the route applies `c3patch`. -/
def c3after : Booking := { c3b with status := "confirmed", updatedAt := some "T1" }

/-- A booking whose status is `"pending"` at (2026-03-01, 19:00). -/
def c4pending : Booking :=
  ⟨1, "2026-03-01", "19:00", 2, "A", "a@b.com", "+359", "pending", "T0", none⟩

/-- A store holding one pending booking at (2026-03-01, 19:00). -/
def c4pstore : Store := ⟨[c4pending], 2⟩

/-- A store holding one pending and one confirmed booking at the slot
(2026-03-01, 19:00). -/
def c4wstore : Store :=
  ⟨[c4pending,
    ⟨2, "2026-03-01", "19:00", 4, "B", "b@x.com", "+359", "confirmed", "T0", none⟩], 3⟩

/-- SQL table row: id 1, capacity 4. -/
def c5t1 : DB.Table := ⟨1, "T01", 4, "indoor", true⟩

/-- SQL table row: id 2, also capacity 4. -/
def c5t2 : DB.Table := ⟨2, "T02", 4, "indoor", true⟩

/-- A tables list storing the two equal-capacity rows in reverse id order. -/
def c5tables : List DB.Table := [c5t2, c5t1]

/-- A creation request dated 2020-01-01, in the past relative to any current
server date (the repository's own test uses this date as a past date). -/
def c6req : BookingRequest :=
  ⟨some "2020-01-01", some "19:00", some 4, some "A", some "a@b.com", some "+359"⟩

/-- The booking the route builds for the past-dated request `c6req`. -/
def c6b : Booking :=
  ⟨1, "2020-01-01", "19:00", 4, "A", "a@b.com", "+359", "confirmed", "T1", none⟩

/-- A creation request with party size 0 and every other field present. -/
def c7req : BookingRequest :=
  ⟨some "2026-03-01", some "19:00", some 0, some "A", some "a@b.com", some "+359"⟩

/-- A creation request violating two rules at once: a past date (2020-01-01)
and a party size of 11. -/
def c8req : BookingRequest :=
  ⟨some "2020-01-01", some "19:00", some 11, some "A", some "a@b.com", some "+359"⟩

/-- A confirmed booking with id 1 used to exercise the update route. -/
def c10b : Booking :=
  ⟨1, "2026-03-01", "19:00", 4, "A", "a@b.com", "+359", "confirmed", "T0", none⟩

/-- A store holding only `c10b`. -/
def c10store : Store := ⟨[c10b], 2⟩

/-- A patch carrying a past date, an out-of-range guest count, an arbitrary
status string, and a falsy (empty-string) email. -/
def c10patch : Patch :=
  ⟨some "2020-01-01", none, some 99, none, some "", none, some "garbage"⟩

/-- Claim C1: in every reachable state at most one active booking holds a
given (table, date, time), and of N identical requests against one fitting
table exactly one is confirmed and the rest fail with NoAvailability.  The
route refutes this: it performs no availability check at all, so two
identical valid requests for the same (date, time) both commit with status
`"confirmed"` and distinct ids — the double-booking the claim forbids. -/
theorem c1_double_booking_committed :
    createBooking emptyStore c1req "T1" = (.created c1b1, ⟨[c1b1], 2⟩) ∧
    createBooking ⟨[c1b1], 2⟩ c1req "T2" = (.created c1b2, ⟨[c1b1, c1b2], 3⟩) ∧
    c1b1.status = "confirmed" ∧ c1b2.status = "confirmed" ∧
    c1b1.date = c1b2.date ∧ c1b1.time = c1b2.time ∧ c1b1.id ≠ c1b2.id := by
  decide

/-- Claim C2: when every fitting table is actively booked at (d, t),
createBooking must fail with NoAvailability.  The route refutes this: with
the slot fully occupied (its own availability endpoint reports 0 available
tables), a further valid request still commits with status `"confirmed"`. -/
theorem c2_full_slot_still_committed :
    slotSummary fullStore (some "2026-03-01") (some "19:00") =
      .ok "2026-03-01" "19:00" 15 15 0 false ∧
    createBooking fullStore c2req "T9" =
      (.created c2b, ⟨fullStore.bookings ++ [c2b], 17⟩) := by
  decide

/-- Claim C3: only the transitions of the state machine may be stored and any
other requested transition fails with InvalidTransition.  The route refutes
this: a status-only PUT moves a `"cancelled"` booking straight to
`"confirmed"` — a transition out of cancelled — and stores it. -/
theorem c3_cancelled_to_confirmed_stored :
    updateBooking c3store 1 c3patch "T1" = (some c3after, ⟨[c3after], 2⟩) ∧
    c3b.status = "cancelled" ∧ c3after.status = "confirmed" := by
  decide

/-- Claim C4 counterexample: the claim requires `occupiedTables` to count the
tables with an active (pending or confirmed) booking at the slot, but on a
store holding exactly one pending booking at (2026-03-01, 19:00) the endpoint
reports 0 occupied and 15 available, while the active-booking count of the
claim is 1. -/
theorem c4_pending_booking_not_counted :
    claimActiveCountAt c4pstore "2026-03-01" "19:00" = 1 ∧
    slotSummary c4pstore (some "2026-03-01") (some "19:00") =
      .ok "2026-03-01" "19:00" 15 0 15 true := by
  decide

/-- Claim C5 counterexample: the claim requires ties in capacity to be broken
by ascending table id for every store state, but on a store listing two
capacity-4 tables in the order id 2, id 1 the query keeps that order, so the
candidate ids come back as [2, 1] and not [1, 2]. -/
theorem c5_tie_not_broken_by_id :
    (DB.check_table_availability c5tables [] "2026-03-01" "19:00" 2).map DB.Table.id
      = [2, 1] ∧ ([2, 1] : List Nat) ≠ [1, 2] := by
  decide

/-- Claim C6: a creation request dated strictly before the current date must
fail with PastDate.  The route refutes this: it never inspects the date, so
the request dated 2020-01-01 — the date the repository's own test expects to
be rejected — is committed as a confirmed booking. -/
theorem c6_past_date_committed :
    createBooking emptyStore c6req "T1" = (.created c6b, ⟨[c6b], 2⟩) ∧
    c6b.date = "2020-01-01" ∧ c6b.status = "confirmed" := by
  decide

/-- Claim C7: party size 0 must be rejected with the InvalidPartySize
violation.  The route rejects it, but with the all-fields-required response
(0 is falsy in JavaScript, so the missing-field guard fires first), not the
guest-count response the repository's own test expects; no booking is
created. -/
theorem c7_zero_guests_reported_missing :
    createBooking emptyStore c7req "T1" = (.missingFields, emptyStore) ∧
    reportedViolations (createBooking emptyStore c7req "T1").fst
      = [Violation.MissingField] ∧
    Violation.InvalidPartySize ∉
      reportedViolations (createBooking emptyStore c7req "T1").fst := by
  decide

/-- Claim C8 counterexample: the claim requires the failure result to list an
identifier for every violated rule, and its own example — a past date
together with an out-of-range party size — to report both.  The route
refutes this: on such a request it reports only InvalidPartySize and PastDate
appears nowhere. -/
theorem c8_only_first_violation_reported :
    reportedViolations (createBooking emptyStore c8req "T1").fst
      = [Violation.InvalidPartySize] ∧
    Violation.PastDate ∉
      reportedViolations (createBooking emptyStore c8req "T1").fst := by
  decide

lemma booking_guard_eq_not_allFieldsTruthy (req : BookingRequest) :
    (!strTruthy req.date || !strTruthy req.time || !intTruthy req.guests ||
      !strTruthy req.name || !strTruthy req.email || !strTruthy req.phone)
      = !allFieldsTruthy req := by
  unfold allFieldsTruthy
  cases strTruthy req.date <;> cases strTruthy req.time <;>
    cases intTruthy req.guests <;> cases strTruthy req.name <;>
      cases strTruthy req.email <;> cases strTruthy req.phone <;> rfl

/-- Claim C8, amended: the creation route reports at most one violated-rule
identifier per failure — MissingField exactly when some required field is
falsy, else InvalidPartySize exactly when the guest count lies outside
[1, 10] — and PastDate and InvalidEmail are never reported, since the route
has no date or email check; it never accumulates several violations. -/
theorem c8_amended_single_violation (st : Store) (req : BookingRequest)
    (now : String) :
    (reportedViolations (createBooking st req now).fst).length ≤ 1 ∧
    Violation.PastDate ∉ reportedViolations (createBooking st req now).fst ∧
    Violation.InvalidEmail ∉ reportedViolations (createBooking st req now).fst ∧
    (reportedViolations (createBooking st req now).fst = [Violation.MissingField]
      ↔ allFieldsTruthy req = false) ∧
    (reportedViolations (createBooking st req now).fst = [Violation.InvalidPartySize]
      ↔ allFieldsTruthy req = true ∧
          (req.guests.getD 0 < 1 ∨ req.guests.getD 0 > 10)) := by
  unfold createBooking
  rw [booking_guard_eq_not_allFieldsTruthy]
  by_cases hA : allFieldsTruthy req = true
  · rw [if_neg (by simp [hA])]
    by_cases hB : req.guests.getD 0 < 1 ∨ req.guests.getD 0 > 10
    · have hb' : (decide (req.guests.getD 0 < 1) || decide (req.guests.getD 0 > 10))
          = true := by
        rcases hB with h | h <;> simp [h]
      rw [if_pos hb']
      simp [reportedViolations, hA, hB]
    · have hb' : (decide (req.guests.getD 0 < 1) || decide (req.guests.getD 0 > 10))
          = false := by
        rw [not_or] at hB
        simp [hB.1, hB.2]
      rw [if_neg (by simp [hb'])]
      simp [reportedViolations, hA, hB]
  · have hA' : allFieldsTruthy req = false := by
      revert hA; cases allFieldsTruthy req <;> simp
    rw [hA', if_pos (by simp)]
    simp [reportedViolations, hA']

/-- Claim C4, amended: for present (truthy) date and time parameters the
availability endpoint reports `occupiedTables` as the number of bookings —
bookings carry no table id, so bookings are counted, not tables — whose date
and time match exactly and whose status is exactly `"confirmed"` (pending
bookings are not counted), `totalTables = 15`, `availableTables` their
difference, and `isAvailable` its positivity. -/
theorem c4_amended_slot_summary (st : Store) (d t : String)
    (hd : d ≠ "") (ht : t ≠ "") :
    slotSummary st (some d) (some t) =
      .ok d t 15 (confirmedCountAt st d t)
        (15 - (confirmedCountAt st d t : Int))
        (decide ((15 : Int) - (confirmedCountAt st d t : Int) > 0)) := by
  rw [slotSummary, if_neg (by simp [strTruthy, hd, ht])]
  rw [confirmedCountAt, List.countP_eq_length_filter]
  rfl

/-- Concrete instance of `c4_amended_slot_summary`: a store with one pending
and one confirmed booking at the slot yields occupied 1, available 14. -/
theorem c4_amended_slot_summary_witness :
    ("2026-03-01" : String) ≠ "" ∧ ("19:00" : String) ≠ "" ∧
    slotSummary c4wstore (some "2026-03-01") (some "19:00") =
      .ok "2026-03-01" "19:00" 15
        (confirmedCountAt c4wstore "2026-03-01" "19:00")
        (15 - (confirmedCountAt c4wstore "2026-03-01" "19:00" : Int))
        (decide ((15 : Int) -
          (confirmedCountAt c4wstore "2026-03-01" "19:00" : Int) > 0)) :=
  ⟨by decide, by decide,
    c4_amended_slot_summary c4wstore "2026-03-01" "19:00" (by decide) (by decide)⟩

/-- Claim C9: for a booking id not present in the store, the GET, PUT and
DELETE routes each answer 404 and leave the store exactly as it was. -/
theorem c9_notfound_preserves_store (st : Store) (id : Nat) (p : Patch)
    (now : String) (h : ∀ b ∈ st.bookings, b.id ≠ id) :
    getBooking st id = none ∧ updateBooking st id p now = (none, st) ∧
    deleteBooking st id = (false, st) := by
  have hf : st.bookings.find? (fun b => b.id == id) = none := by
    rw [List.find?_eq_none]
    intro b hb
    simpa using h b hb
  have hi : st.bookings.findIdx? (fun b => b.id == id) = none := by
    rw [List.findIdx?_eq_none_iff]
    intro b hb
    simpa using h b hb
  refine ⟨hf, ?_, ?_⟩
  · rw [updateBooking, hf]
  · rw [deleteBooking, hi]

/-- Concrete instance of `c9_notfound_preserves_store`: id 99999 is absent
from the one-booking store `c3store`. -/
theorem c9_notfound_preserves_store_witness :
    (∀ b ∈ c3store.bookings, b.id ≠ 99999) ∧
    (getBooking c3store 99999 = none ∧
      updateBooking c3store 99999 emptyPatch "T" = (none, c3store) ∧
      deleteBooking c3store 99999 = (false, c3store)) :=
  ⟨by decide, c9_notfound_preserves_store c3store 99999 emptyPatch "T" (by decide)⟩

lemma updateFirst_mem_of_find (bs : List Booking) (id : Nat)
    (f : Booking → Booking) (b : Booking)
    (h : bs.find? (fun x => x.id == id) = some b) :
    f b ∈ updateFirst bs id f := by
  induction bs with
  | nil => simp [List.find?] at h
  | cons a rest ih =>
    by_cases ha : (a.id == id) = true
    · simp only [List.find?, ha] at h
      cases h
      simp [updateFirst, ha]
    · have ha' : (a.id == id) = false := by
        revert ha; cases (a.id == id) <;> simp
      simp only [List.find?, ha'] at h
      simp only [updateFirst, ha', Bool.false_eq_true, if_false]
      exact List.mem_cons_of_mem a (ih h)

/-- Claim C10: for an existing booking, PUT applies every provided truthy
patch field as-is with no re-validation (an out-of-range guest count, a past
date or an arbitrary status string is stored unchanged), ignores every falsy
patch field, and always refreshes `updatedAt`; the patched booking is both
returned and stored. -/
theorem c10_update_applies_patch_unvalidated (st : Store) (id : Nat)
    (p : Patch) (now : String) (b : Booking)
    (h : st.bookings.find? (fun x => x.id == id) = some b) :
    (updateBooking st id p now).fst = some (applyPatch b p now) ∧
    applyPatch b p now ∈ (updateBooking st id p now).snd.bookings ∧
    (applyPatch b p now).date
      = (if strTruthy p.date then p.date.getD "" else b.date) ∧
    (applyPatch b p now).time
      = (if strTruthy p.time then p.time.getD "" else b.time) ∧
    (applyPatch b p now).guests
      = (if intTruthy p.guests then p.guests.getD 0 else b.guests) ∧
    (applyPatch b p now).name
      = (if strTruthy p.name then p.name.getD "" else b.name) ∧
    (applyPatch b p now).email
      = (if strTruthy p.email then p.email.getD "" else b.email) ∧
    (applyPatch b p now).phone
      = (if strTruthy p.phone then p.phone.getD "" else b.phone) ∧
    (applyPatch b p now).status
      = (if strTruthy p.status then p.status.getD "" else b.status) ∧
    (applyPatch b p now).updatedAt = some now ∧
    (applyPatch b p now).id = b.id ∧
    (applyPatch b p now).createdAt = b.createdAt := by
  refine ⟨?_, ?_, rfl, rfl, rfl, rfl, rfl, rfl, rfl, rfl, rfl, rfl⟩
  · rw [updateBooking, h]
  · rw [updateBooking, h]
    exact updateFirst_mem_of_find st.bookings id _ b h

/-- Concrete instance of `c10_update_applies_patch_unvalidated`: a patch with
a past date, 99 guests, status `"garbage"` and a falsy email applied to the
confirmed booking of `c10store`. -/
theorem c10_update_applies_patch_unvalidated_witness :
    c10store.bookings.find? (fun x => x.id == 1) = some c10b ∧
    ((updateBooking c10store 1 c10patch "T1").fst
        = some (applyPatch c10b c10patch "T1") ∧
      applyPatch c10b c10patch "T1"
        ∈ (updateBooking c10store 1 c10patch "T1").snd.bookings ∧
      (applyPatch c10b c10patch "T1").date
        = (if strTruthy c10patch.date then c10patch.date.getD "" else c10b.date) ∧
      (applyPatch c10b c10patch "T1").time
        = (if strTruthy c10patch.time then c10patch.time.getD "" else c10b.time) ∧
      (applyPatch c10b c10patch "T1").guests
        = (if intTruthy c10patch.guests then c10patch.guests.getD 0 else c10b.guests) ∧
      (applyPatch c10b c10patch "T1").name
        = (if strTruthy c10patch.name then c10patch.name.getD "" else c10b.name) ∧
      (applyPatch c10b c10patch "T1").email
        = (if strTruthy c10patch.email then c10patch.email.getD "" else c10b.email) ∧
      (applyPatch c10b c10patch "T1").phone
        = (if strTruthy c10patch.phone then c10patch.phone.getD "" else c10b.phone) ∧
      (applyPatch c10b c10patch "T1").status
        = (if strTruthy c10patch.status then c10patch.status.getD "" else c10b.status) ∧
      (applyPatch c10b c10patch "T1").updatedAt = some "T1" ∧
      (applyPatch c10b c10patch "T1").id = c10b.id ∧
      (applyPatch c10b c10patch "T1").createdAt = c10b.createdAt) :=
  ⟨by decide,
    c10_update_applies_patch_unvalidated c10store 1 c10patch "T1" c10b (by decide)⟩

/-- Claim C5, amended: for every store state, `check_table_availability`
returns a permutation of exactly the table rows with capacity at least the
party size, `is_available` true, and no active (pending or confirmed)
booking at the slot, ordered ascending by capacity; the SQL
`ORDER BY t.capacity ASC` guarantees no tie-break among equal-capacity rows,
so no ordering among them — by table id or otherwise — is part of the
query's contract, and both conclusions hold for every equal-capacity order
SQL permits. -/
theorem c5_amended_candidate_tables (tables : List DB.Table)
    (bookings : List DB.Booking) (d t : String) (p : Int) :
    (DB.check_table_availability tables bookings d t p).Perm
      (tables.filter (DB.candidatePred bookings d t p)) ∧
    (DB.check_table_availability tables bookings d t p).Pairwise DB.capLe :=
  ⟨List.perm_insertionSort DB.capLe _, List.sorted_insertionSort DB.capLe _⟩
